import Mathlib

/-
  Verification development for the moon/bags trading-intelligence core:
  a shallow embedding of the token scoring engine (bags/lib/scanner.mjs),
  the position-sizing / Kelly calculator and journal analyzer
  (moon/lib/calc.mjs), and the persistent JSON state store
  (moon/lib/state.mjs), together with theorems settling the documented
  behavioural claims about them.

  Modelling conventions:
  - JS numbers are embedded as rationals where the code only performs
    field arithmetic and comparisons, and as reals where the code calls
    Math.exp / Math.log10.
  - A JS value that may be null or undefined is embedded as an Option.
    Numeric fields read through falsy coalescing (x || d) are embedded
    with an explicit zero test where the distinction matters.
  - Async fetches resolved by Promise.allSettled are embedded as Option
    arguments: some = fulfilled with a usable value, none = rejected or
    resolved to the null fallback.
  - The state file is embedded as Option PartialStateDoc: none stands
    for a missing or unparsable file, some p for a parsed JSON document
    in which any top-level key (and any config key) may be absent.
    Serialisation of a full document followed by parsing is modelled as
    the identity on well-formed documents.
-/

set_option maxHeartbeats 1000000

namespace Moon

/-! ## Token scoring engine (bags/lib/scanner.mjs) -/

/-- Scoring weights record, from the WEIGHTS constant in scanner.mjs. -/
structure Weights where
  liquidity : ℝ
  volume : ℝ
  holders : ℝ
  safety : ℝ
  age : ℝ

/-- WEIGHTS = liquidity 0.25, volume 0.20, holders 0.20, safety 0.20, age 0.15. -/
noncomputable def WEIGHTS : Weights :=
  { liquidity := 0.25, volume := 0.20, holders := 0.20, safety := 0.20, age := 0.15 }

/-- scoreLiquidity: null impact scores 0; otherwise 1 at 0% price impact,
linearly degrading to 0 at 5%+ impact, clamped to [0,1]. -/
noncomputable def scoreLiquidity (priceImpactPct : Option ℝ) : ℝ :=
  match priceImpactPct with
  | none => 0
  | some p => max 0 (min 1 (1 - |p| / 5))

/-- scoreVolume: linear in the 24h transaction count, saturating at 1 from 20+. -/
noncomputable def scoreVolume (txCount24h : ℝ) : ℝ :=
  max 0 (min 1 (txCount24h / 20))

/-- scoreHolders: 0 for at most one holder, otherwise log10(count)/3 clamped to [0,1]. -/
noncomputable def scoreHolders (holderCount : ℝ) : ℝ :=
  if holderCount ≤ 1 then 0
  else max 0 (min 1 (Real.logb 10 holderCount / 3))

/-- scoreSafety: 1 - riskCount/5 clamped to [0,1]. -/
noncomputable def scoreSafety (riskCount : ℝ) : ℝ :=
  max 0 (min 1 (1 - riskCount / 5))

/-- scoreAge: a falsy (absent or zero) creation time scores a neutral 0.5;
otherwise exp(-ageSeconds/86400) where ageSeconds = max 0 (now - createdAtUnix).
The implicit Date.now()/1000 clock of the source is passed explicitly as now. -/
noncomputable def scoreAge (now : ℝ) (createdAtUnix : Option ℝ) : ℝ :=
  match createdAtUnix with
  | none => 0.5
  | some c => if c = 0 then 0.5 else Real.exp (-(max 0 (now - c)) / 86400)

/-- Per-token metrics record assembled by analyzeToken. -/
structure TokenMetrics where
  mint : String
  liquidityScore : ℝ
  volumeScore : ℝ
  holdersScore : ℝ
  safetyScore : ℝ
  ageScore : ℝ
  holderCount : ℕ
  txCount24h : ℕ
  riskCount : ℕ
  priceImpactPct : Option ℚ
  topHolderPct : ℚ
  hasCriticalRisk : Bool
  quotable : Bool
  score : ℝ

/-- computeScore: weighted sum of the five component scores. -/
noncomputable def computeScore (m : TokenMetrics) : ℝ :=
  WEIGHTS.liquidity * m.liquidityScore +
  WEIGHTS.volume * m.volumeScore +
  WEIGHTS.holders * m.holdersScore +
  WEIGHTS.safety * m.safetyScore +
  WEIGHTS.age * m.ageScore

/-- The getTokenHolders result fields read by analyzeToken. A numeric field
absent from the provider response is read through falsy coalescing in the
source and is modelled here as the value 0. -/
structure HoldersData where
  totalAccounts : ℕ
  top10ConcentrationPct : ℚ
deriving DecidableEq

/-- The getTokenSafety result fields read by analyzeToken. -/
structure SafetyData where
  riskCount : ℕ
  warningCount : ℕ
deriving DecidableEq

/-- The getQuote result field read by analyzeToken. -/
structure QuoteData where
  priceImpactPct : ℚ
deriving DecidableEq

/-- One enhanced transaction as read by the volume proxy (only its timestamp). -/
structure TxRecord where
  timestamp : ℚ
deriving DecidableEq

/-- The metrics-assembly part of analyzeToken, before the final score is
attached: the worst-case defaults, then one conditional update per settled
fetch result, in source order (holders, safety, quote, transactions). -/
noncomputable def analyzeTokenBase (mint : String) (createdAt : Option ℚ) (now : ℚ)
    (holdersResult : Option HoldersData) (safetyResult : Option SafetyData)
    (quoteResult : Option QuoteData) (txResult : Option (List TxRecord)) : TokenMetrics :=
  let m0 : TokenMetrics :=
    { mint := mint, liquidityScore := 0, volumeScore := 0, holdersScore := 0,
      safetyScore := 0, ageScore := scoreAge (now : ℝ) (createdAt.map fun c => (c : ℝ)),
      holderCount := 0, txCount24h := 0, riskCount := 0, priceImpactPct := none,
      topHolderPct := 100, hasCriticalRisk := false, quotable := false, score := 0 }
  let m1 := match holdersResult with
    | none => m0
    | some h =>
      { m0 with holderCount := h.totalAccounts,
                holdersScore := scoreHolders (h.totalAccounts : ℝ),
                topHolderPct :=
                  if h.top10ConcentrationPct = 0 then 100 else h.top10ConcentrationPct }
  let m2 := match safetyResult with
    | none => m1
    | some s =>
      { m1 with riskCount := s.riskCount + s.warningCount,
                safetyScore := scoreSafety (s.riskCount : ℝ),
                hasCriticalRisk := decide (0 < s.riskCount) }
  let m3 := match quoteResult with
    | none => m2
    | some q =>
      { m2 with priceImpactPct := some q.priceImpactPct,
                liquidityScore := scoreLiquidity (some (q.priceImpactPct : ℝ)),
                quotable := true }
  match txResult with
  | none => m3
  | some txs =>
    let recent := txs.filter fun tx => decide (tx.timestamp ≠ 0 ∧ now - tx.timestamp < 86400)
    { m3 with txCount24h := recent.length, volumeScore := scoreVolume (recent.length : ℝ) }

/-- analyzeToken: assemble the metrics and attach the composite score last,
as the source does with metrics.score = computeScore(metrics). -/
noncomputable def analyzeToken (mint : String) (createdAt : Option ℚ) (now : ℚ)
    (holdersResult : Option HoldersData) (safetyResult : Option SafetyData)
    (quoteResult : Option QuoteData) (txResult : Option (List TxRecord)) : TokenMetrics :=
  let m := analyzeTokenBase mint createdAt now holdersResult safetyResult quoteResult txResult
  { m with score := computeScore m }

/-- passesFilters: the four exclusion tests of scanner.mjs, in source order. -/
def passesFilters (m : TokenMetrics) : Bool :=
  if m.holderCount < 10 then false
  else if 50 < m.topHolderPct then false
  else if m.hasCriticalRisk then false
  else if !m.quotable then false
  else true

/-! ## Position sizing and Kelly calculator (moon/lib/calc.mjs) -/

/-- The successful result record of calcPositionSize. -/
structure PositionSize where
  positionSize : ℚ
  tokensToBuy : ℚ
  riskAmount : ℚ
  riskPct : ℚ
  pctOfPortfolio : ℚ
  entryPrice : ℚ
  stopLossPrice : Option ℚ
deriving DecidableEq

/-- The result of calcPositionSize: either an explicit error object or the
sizing record. -/
inductive PositionSizeResult where
  | error (message : String)
  | ok (result : PositionSize)
deriving DecidableEq

/-- calcPositionSize: risk-based position sizing. The JS guards
(!x || x <= 0) on numbers collapse to x ≤ 0. The stop-loss branch requires a
truthy stop that is positive and strictly below the entry price; the returned
stopLossPrice field is read through (stopLossPrice || null), so a zero stop is
reported as null. -/
def calcPositionSize (portfolioValue riskPct entryPrice : ℚ)
    (stopLossPrice : Option ℚ) : PositionSizeResult :=
  if portfolioValue ≤ 0 then .error "Invalid portfolio value"
  else if riskPct ≤ 0 then .error "Invalid risk %"
  else if entryPrice ≤ 0 then .error "Invalid entry price"
  else
    let riskAmount := portfolioValue * (riskPct / 100)
    let useStop := match stopLossPrice with
      | some s => decide (0 < s) && decide (s < entryPrice)
      | none => false
    let tokensToBuy :=
      if useStop then riskAmount / (entryPrice - stopLossPrice.getD 0)
      else riskAmount / entryPrice
    let positionSize :=
      if useStop then tokensToBuy * entryPrice
      else riskAmount
    let pctOfPortfolio := positionSize / portfolioValue * 100
    .ok { positionSize := positionSize, tokensToBuy := tokensToBuy,
          riskAmount := riskAmount, riskPct := riskPct,
          pctOfPortfolio := pctOfPortfolio, entryPrice := entryPrice,
          stopLossPrice := match stopLossPrice with
            | some s => if s = 0 then none else some s
            | none => none }

/-- The recommendation branches of calcKellyCriterion. The source builds a
formatted message string per branch; only the branch structure is modelled. -/
inductive KellyRec where
  | noLosses
  | noWins
  | negativeEdge
  | verySmallEdge
  | halfKellySize
  | halfKellyCapped
deriving DecidableEq

/-- The result record of calcKellyCriterion. -/
structure KellyResult where
  kellyPct : ℚ
  halfKellyPct : ℚ
  winLossRatio : Option ℚ
  recommendation : KellyRec
deriving DecidableEq

/-- calcKellyCriterion: kelly% = (W - (1-W)/R) * 100 with R = |avgWin|/|avgLoss|,
capped at 25 then floored at 0 on return; halfKelly = max(capped/2, 0).
Degenerate inputs (avgLoss = 0, or winRate ≤ 0) short-circuit to 0.

Caveat on the rational embedding: when avgWin = 0 (so R = 0) the source
evaluates (1-W)/0 in floats to plus or minus Infinity (or, at W = 1, NaN)
and the Infinity propagates through the cap and floor, whereas here the
convention x/0 = 0 applies; the embedding therefore agrees with the source
only where R is nonzero, and theorems about the cap/floor formula carry the
explicit hypothesis avgWin ≠ 0. -/
def calcKellyCriterion (winRate avgWin avgLoss : ℚ) : KellyResult :=
  if avgLoss = 0 then
    { kellyPct := 0, halfKellyPct := 0, winLossRatio := none, recommendation := .noLosses }
  else if winRate ≤ 0 then
    { kellyPct := 0, halfKellyPct := 0, winLossRatio := none, recommendation := .noWins }
  else
    let R := |avgWin| / |avgLoss|
    let kellyRaw := (winRate - (1 - winRate) / R) * 100
    let kellyCapped := min kellyRaw 25
    let halfKellyPct := max (kellyCapped / 2) 0
    let recom := if kellyCapped ≤ 0 then KellyRec.negativeEdge
      else if halfKellyPct < 1 then KellyRec.verySmallEdge
      else if halfKellyPct < 5 then KellyRec.halfKellySize
      else KellyRec.halfKellyCapped
    { kellyPct := max kellyCapped 0, halfKellyPct := halfKellyPct,
      winLossRatio := some R, recommendation := recom }

/-! ## Journal entries and the journal analyzer (moon/lib/calc.mjs, state.mjs) -/

/-- A journal entry as produced by addJournalEntry and consumed by
analyzeJournal. Fields that the code may leave absent or null are Options;
narratives is an Option because entries added without tags carry no such key
and the analyzer reads it through (e.narratives || []). -/
structure JournalEntry where
  id : String
  type : Option String
  chain : Option String
  mint : Option String
  symbol : Option String
  amount : Option ℚ
  tokenAmount : Option ℚ
  price : Option ℚ
  mcap : Option ℚ
  status : String
  exitPrice : Option ℚ
  exitTimestamp : Option ℚ
  pnl : Option ℚ
  pnlPct : Option ℚ
  narratives : Option (List String)
  note : Option String
  signature : Option String
  timestamp : ℚ
deriving DecidableEq

/-- The closed subset analysed: status "closed" and pnlPct loosely non-null
(a pnlPct of 0 passes the JS test pnlPct != null). -/
def closedEntries (entries : List JournalEntry) : List JournalEntry :=
  entries.filter fun e => e.status == "closed" && e.pnlPct.isSome

/-- The win subset of a closed list: pnlPct > 0. -/
def winsOf (closed : List JournalEntry) : List JournalEntry :=
  closed.filter fun e => decide (0 < e.pnlPct.getD 0)

/-- The loss subset of a closed list: pnlPct ≤ 0, so break-even trades land here. -/
def lossesOf (closed : List JournalEntry) : List JournalEntry :=
  closed.filter fun e => decide (e.pnlPct.getD 0 ≤ 0)

/-- The streak accumulator of analyzeJournal: the signed running streak plus
the best winning and worst losing run lengths seen so far. -/
structure StreakAcc where
  tempStreak : ℤ
  bestWinStreak : ℤ
  worstLoseStreak : ℤ
deriving DecidableEq

/-- One iteration of the streak loop: a win extends a positive run or starts
one at 1; anything else (pnlPct ≤ 0) extends a negative run or starts one at -1. -/
def streakStep (acc : StreakAcc) (e : JournalEntry) : StreakAcc :=
  if 0 < e.pnlPct.getD 0 then
    let t := if 0 < acc.tempStreak then acc.tempStreak + 1 else 1
    { tempStreak := t, bestWinStreak := max acc.bestWinStreak t,
      worstLoseStreak := acc.worstLoseStreak }
  else
    let t := if acc.tempStreak < 0 then acc.tempStreak - 1 else -1
    { tempStreak := t, bestWinStreak := acc.bestWinStreak,
      worstLoseStreak := max acc.worstLoseStreak |t| }

/-- The streak loop over the closed entries in stored order. -/
def streaksOf (closed : List JournalEntry) : StreakAcc :=
  closed.foldl streakStep { tempStreak := 0, bestWinStreak := 0, worstLoseStreak := 0 }

/-- profitFactor: grossProfit/grossLoss, Infinity when no losses but profit
exists, 0 when neither. -/
inductive ProfitFactor where
  | finite (value : ℚ)
  | infinite
deriving DecidableEq

/-- The aggregate statistics computed by analyzeJournal over a nonempty closed
list. bestTrade, worstTrade, byNarrative and byChain are output fields of the
source not referenced by any verified property and are not modelled. -/
structure JournalStats where
  totalTrades : ℕ
  wins : ℕ
  losses : ℕ
  winRate : ℚ
  avgWinPct : ℚ
  avgLossPct : ℚ
  avgPnlPct : ℚ
  totalPnl : ℚ
  profitFactor : ProfitFactor
  kellyPct : ℚ
  halfKellyPct : ℚ
  kellyRecommendation : KellyRec
  streaks : StreakAcc
deriving DecidableEq

/-- The main branch of analyzeJournal on the closed sublist. -/
def journalStats (closed : List JournalEntry) : JournalStats :=
  let wins := winsOf closed
  let losses := lossesOf closed
  let winRate : ℚ := (wins.length : ℚ) / (closed.length : ℚ)
  let avgWinPct : ℚ :=
    if 0 < wins.length then (wins.map fun e => e.pnlPct.getD 0).sum / (wins.length : ℚ) else 0
  let avgLossPct : ℚ :=
    if 0 < losses.length then
      (losses.map fun e => |e.pnlPct.getD 0|).sum / (losses.length : ℚ)
    else 0
  let totalPnl : ℚ := (closed.map fun e => e.pnl.getD 0).sum
  let totalPnlPct : ℚ := (closed.map fun e => e.pnlPct.getD 0).sum
  let grossProfit : ℚ := (wins.map fun e => e.pnl.getD 0).sum
  let grossLoss : ℚ := |(losses.map fun e => e.pnl.getD 0).sum|
  let pf := if 0 < grossLoss then ProfitFactor.finite (grossProfit / grossLoss)
    else if 0 < grossProfit then ProfitFactor.infinite
    else ProfitFactor.finite 0
  let kelly := calcKellyCriterion winRate avgWinPct avgLossPct
  { totalTrades := closed.length, wins := wins.length, losses := losses.length,
    winRate := winRate, avgWinPct := avgWinPct, avgLossPct := avgLossPct,
    avgPnlPct := totalPnlPct / (closed.length : ℚ), totalPnl := totalPnl,
    profitFactor := pf, kellyPct := kelly.kellyPct, halfKellyPct := kelly.halfKellyPct,
    kellyRecommendation := kelly.recommendation, streaks := streaksOf closed }

/-- analyzeJournal result: either the explicit no-closed-trades record or the
full statistics. -/
inductive JournalAnalysis where
  | noData (totalTrades wins losses : ℕ) (winRate avgPnlPct : ℚ) (message : String)
  | stats (s : JournalStats)
deriving DecidableEq

/-- analyzeJournal: filter to the closed subset, short-circuit when it is
empty, otherwise compute the aggregate statistics. -/
def analyzeJournal (entries : List JournalEntry) : JournalAnalysis :=
  let closed := closedEntries entries
  if closed.isEmpty then .noData 0 0 0 0 0 "No closed trades to analyze"
  else .stats (journalStats closed)

/-! ## Persistent state store (moon/lib/state.mjs) -/

/-- The config block of the state document. -/
structure MoonConfig where
  goalUsd : ℚ
  defaultRiskPct : ℚ
  defaultStopLossPct : ℚ
  lastWatchCheck : ℚ
deriving DecidableEq

/-- A parsed config block in which any key may be absent. -/
structure PartialMoonConfig where
  goalUsd : Option ℚ
  defaultRiskPct : Option ℚ
  defaultStopLossPct : Option ℚ
  lastWatchCheck : Option ℚ
deriving DecidableEq

/-- A watchlist item as stored. -/
structure WatchlistItem where
  mint : String
  chain : Option String
  symbol : Option String
  targetBuy : Option ℚ
  targetSell : Option ℚ
  narratives : Option (List String)
  priceAtAdd : Option ℚ
  lastPrice : Option ℚ
  lastMcap : Option ℚ
  lastHolders : Option ℚ
  notes : Option String
  addedAt : ℚ
  lastCheck : ℚ
deriving DecidableEq

/-- A narrative record: the accumulated unique token mints plus notes. -/
structure NarrativeRecord where
  tokens : List String
  notes : String
deriving DecidableEq

/-- One scan-history record. -/
structure ScanRecord where
  timestamp : ℚ
  topMints : List String
  bestScore : ℚ
deriving DecidableEq

/-- A tracked Polymarket bet as stored. -/
structure PolyBet where
  conditionId : String
  question : Option String
  side : Option String
  amount : Option ℚ
  price : Option ℚ
  outcome : Option String
  pnl : Option ℚ
  status : String
  trackedAt : ℚ
deriving DecidableEq

/-- The full state document, with every top-level key present. -/
structure StateDoc where
  version : ℚ
  config : MoonConfig
  journal : List JournalEntry
  watchlist : List WatchlistItem
  narratives : List (String × NarrativeRecord)
  scanHistory : List ScanRecord
  polymarketBets : List PolyBet
deriving DecidableEq

/-- A parsed state document in which any top-level key may be absent. -/
structure PartialStateDoc where
  version : Option ℚ
  config : Option PartialMoonConfig
  journal : Option (List JournalEntry)
  watchlist : Option (List WatchlistItem)
  narratives : Option (List (String × NarrativeRecord))
  scanHistory : Option (List ScanRecord)
  polymarketBets : Option (List PolyBet)
deriving DecidableEq

/-- The state file: none models a missing or unparsable file. -/
abbrev StateFile := Option PartialStateDoc

/-- DEFAULT_STATE from state.mjs. -/
def DEFAULT_STATE : StateDoc :=
  { version := 1,
    config := { goalUsd := 1000000, defaultRiskPct := 2, defaultStopLossPct := 20,
                lastWatchCheck := 0 },
    journal := [], watchlist := [], narratives := [], scanHistory := [],
    polymarketBets := [] }

/-- The config merge of loadState: spread defaults under the parsed config. -/
def mergeConfig (p : PartialMoonConfig) : MoonConfig :=
  { goalUsd := p.goalUsd.getD DEFAULT_STATE.config.goalUsd,
    defaultRiskPct := p.defaultRiskPct.getD DEFAULT_STATE.config.defaultRiskPct,
    defaultStopLossPct := p.defaultStopLossPct.getD DEFAULT_STATE.config.defaultStopLossPct,
    lastWatchCheck := p.lastWatchCheck.getD DEFAULT_STATE.config.lastWatchCheck }

/-- The all-absent parsed config, the (parsed.config || \x7b\x7d) fallback. -/
def emptyPartialConfig : PartialMoonConfig :=
  { goalUsd := none, defaultRiskPct := none, defaultStopLossPct := none,
    lastWatchCheck := none }

/-- loadState: a missing or unparsable file yields a clone of DEFAULT_STATE;
otherwise the parsed document is merged over the defaults, with the config
block merged key by key. -/
def loadState (file : StateFile) : StateDoc :=
  match file with
  | none => DEFAULT_STATE
  | some parsed =>
    { version := parsed.version.getD DEFAULT_STATE.version,
      config := mergeConfig (parsed.config.getD emptyPartialConfig),
      journal := parsed.journal.getD DEFAULT_STATE.journal,
      watchlist := parsed.watchlist.getD DEFAULT_STATE.watchlist,
      narratives := parsed.narratives.getD DEFAULT_STATE.narratives,
      scanHistory := parsed.scanHistory.getD DEFAULT_STATE.scanHistory,
      polymarketBets := parsed.polymarketBets.getD DEFAULT_STATE.polymarketBets }

/-- The serialised form of a full document: every key is written. -/
def toPartial (s : StateDoc) : PartialStateDoc :=
  { version := some s.version,
    config := some { goalUsd := some s.config.goalUsd,
                     defaultRiskPct := some s.config.defaultRiskPct,
                     defaultStopLossPct := some s.config.defaultStopLossPct,
                     lastWatchCheck := some s.config.lastWatchCheck },
    journal := some s.journal, watchlist := some s.watchlist,
    narratives := some s.narratives, scanHistory := some s.scanHistory,
    polymarketBets := some s.polymarketBets }

/-- saveState: atomically replace the file with the serialised document (the
write-temp-then-rename mechanics collapse to replacement in this model). -/
def saveState (state : StateDoc) (_file : StateFile) : StateFile :=
  some (toPartial state)

/-- The argument object of addJournalEntry: any of the entry fields may be
supplied; absent fields fall back to the defaults spread underneath. -/
structure JournalEntryInput where
  id : Option String
  type : Option String
  chain : Option String
  mint : Option String
  symbol : Option String
  amount : Option ℚ
  tokenAmount : Option ℚ
  price : Option ℚ
  mcap : Option ℚ
  status : Option String
  exitPrice : Option ℚ
  exitTimestamp : Option ℚ
  pnl : Option ℚ
  pnlPct : Option ℚ
  narratives : Option (List String)
  note : Option String
  signature : Option String
  timestamp : Option ℚ
deriving DecidableEq

/-- addJournalEntry: build the full record (generated id and open status under
the caller fields, timestamp = entry.timestamp || Date.now()), push it and save. -/
def addJournalEntry (now : ℚ) (entry : JournalEntryInput) (file : StateFile) :
    JournalEntry × StateFile :=
  let state := loadState file
  let full : JournalEntry :=
    { id := entry.id.getD ("j_" ++ toString now),
      type := entry.type, chain := entry.chain, mint := entry.mint,
      symbol := entry.symbol, amount := entry.amount, tokenAmount := entry.tokenAmount,
      price := entry.price, mcap := entry.mcap,
      status := entry.status.getD "open",
      exitPrice := entry.exitPrice, exitTimestamp := entry.exitTimestamp,
      pnl := entry.pnl, pnlPct := entry.pnlPct,
      narratives := entry.narratives, note := entry.note, signature := entry.signature,
      timestamp := match entry.timestamp with
        | some t => if t = 0 then now else t
        | none => now }
  (full, saveState { state with journal := state.journal ++ [full] } file)

/-- The update object of updateJournalEntry: a present key overrides the
stored field, an absent key leaves it alone (the spread merge). -/
structure JournalUpdates where
  status : Option String
  exitPrice : Option ℚ
  exitTimestamp : Option ℚ
  pnl : Option ℚ
  pnlPct : Option ℚ
  note : Option String
deriving DecidableEq

/-- Spread merge of an update object over a stored entry. -/
def applyJournalUpdates (e : JournalEntry) (u : JournalUpdates) : JournalEntry :=
  { e with status := u.status.getD e.status,
           exitPrice := u.exitPrice.orElse fun _ => e.exitPrice,
           exitTimestamp := u.exitTimestamp.orElse fun _ => e.exitTimestamp,
           pnl := u.pnl.orElse fun _ => e.pnl,
           pnlPct := u.pnlPct.orElse fun _ => e.pnlPct,
           note := u.note.orElse fun _ => e.note }

/-- Replace the first entry whose id matches, returning the merged entry and
the updated list, or none when no entry matches (findIndex returning -1). -/
def updateById (id : String) (u : JournalUpdates) :
    List JournalEntry → Option (JournalEntry × List JournalEntry)
  | [] => none
  | j :: rest =>
    if j.id == id then
      let j2 := applyJournalUpdates j u
      some (j2, j2 :: rest)
    else
      match updateById id u rest with
      | none => none
      | some (r, rest2) => some (r, j :: rest2)

/-- updateJournalEntry: merge the updates into the first matching entry and
save; an unknown id returns null without saving. -/
def updateJournalEntry (id : String) (u : JournalUpdates) (file : StateFile) :
    Option JournalEntry × StateFile :=
  let state := loadState file
  match updateById id u state.journal with
  | none => (none, file)
  | some (j2, journal2) =>
    (some j2, saveState { state with journal := journal2 } file)

/-- The argument object of addWatchlistItem. -/
structure WatchlistItemInput where
  mint : String
  chain : Option String
  symbol : Option String
  targetBuy : Option ℚ
  targetSell : Option ℚ
  narratives : Option (List String)
  priceAtAdd : Option ℚ
  lastPrice : Option ℚ
  lastMcap : Option ℚ
  lastHolders : Option ℚ
  notes : Option String
  addedAt : Option ℚ
  lastCheck : Option ℚ
deriving DecidableEq

/-- addWatchlistItem: drop any stored item with the same mint, then push the
item over the defaults addedAt = Date.now(), lastCheck = 0, and save. -/
def addWatchlistItem (now : ℚ) (item : WatchlistItemInput) (file : StateFile) :
    WatchlistItemInput × StateFile :=
  let state := loadState file
  let kept := state.watchlist.filter fun w => w.mint ≠ item.mint
  let full : WatchlistItem :=
    { mint := item.mint, chain := item.chain, symbol := item.symbol,
      targetBuy := item.targetBuy, targetSell := item.targetSell,
      narratives := item.narratives, priceAtAdd := item.priceAtAdd,
      lastPrice := item.lastPrice, lastMcap := item.lastMcap,
      lastHolders := item.lastHolders, notes := item.notes,
      addedAt := item.addedAt.getD now, lastCheck := item.lastCheck.getD 0 }
  (item, saveState { state with watchlist := kept ++ [full] } file)

/-- removeWatchlistItem: filter the mint out, save, and report whether the
list shrank. -/
def removeWatchlistItem (mint : String) (file : StateFile) : Bool × StateFile :=
  let state := loadState file
  let before := state.watchlist.length
  let kept := state.watchlist.filter fun w => w.mint ≠ mint
  (decide (kept.length < before), saveState { state with watchlist := kept } file)

/-- Object-key update for the narratives map, modelled as an association list
in insertion order: an existing key is updated in place, a new key is appended. -/
def narrSet (l : List (String × NarrativeRecord)) (name : String) (r : NarrativeRecord) :
    List (String × NarrativeRecord) :=
  if l.any fun p => p.1 == name then
    l.map fun p => if p.1 == name then (name, r) else p
  else l ++ [(name, r)]

/-- addNarrative: create the record on first use (notes defaulting to the
empty string), append a truthy mint when not already present, overwrite notes
when truthy, and save. A falsy mint or notes argument is modelled as none. -/
def addNarrative (name : String) (mint : Option String) (notes : Option String)
    (file : StateFile) : NarrativeRecord × StateFile :=
  let state := loadState file
  let base := match (state.narratives.find? fun p => p.1 == name) with
    | none => ({ tokens := [], notes := notes.getD "" } : NarrativeRecord)
    | some p => p.2
  let withMint := match mint with
    | some m => if base.tokens.contains m then base else { base with tokens := base.tokens ++ [m] }
    | none => base
  let final := match notes with
    | some ns => { withMint with notes := ns }
    | none => withMint
  (final, saveState { state with narratives := narrSet state.narratives name final } file)

/-- The argument object of addScanRecord; a supplied timestamp overrides the
Date.now() default spread underneath it. -/
structure ScanRecordInput where
  timestamp : Option ℚ
  topMints : List String
  bestScore : ℚ
deriving DecidableEq

/-- The stamped record pushed by addScanRecord: the caller record spread over
the default timestamp Date.now(). -/
def mkScanRecord (now : ℚ) (record : ScanRecordInput) : ScanRecord :=
  { timestamp := record.timestamp.getD now, topMints := record.topMints,
    bestScore := record.bestScore }

/-- addScanRecord: push the stamped record, trim to the 50 most recent
entries (slice(-50)) when the list exceeds 50, and save. -/
def addScanRecord (now : ℚ) (record : ScanRecordInput) (file : StateFile) : StateFile :=
  let state := loadState file
  let full : ScanRecord := mkScanRecord now record
  let pushed := state.scanHistory ++ [full]
  let trimmed := if 50 < pushed.length then pushed.drop (pushed.length - 50) else pushed
  saveState { state with scanHistory := trimmed } file

/-- The argument object of addPolyBet. -/
structure PolyBetInput where
  conditionId : String
  question : Option String
  side : Option String
  amount : Option ℚ
  price : Option ℚ
  outcome : Option String
  pnl : Option ℚ
  status : Option String
  trackedAt : Option ℚ
deriving DecidableEq

/-- addPolyBet: push the bet over the defaults trackedAt = Date.now() and
open status, and save. The guard recreating a missing polymarketBets array is
vacuous here because loadState always defaults it. -/
def addPolyBet (now : ℚ) (bet : PolyBetInput) (file : StateFile) :
    PolyBetInput × StateFile :=
  let state := loadState file
  let full : PolyBet :=
    { conditionId := bet.conditionId, question := bet.question, side := bet.side,
      amount := bet.amount, price := bet.price, outcome := bet.outcome, pnl := bet.pnl,
      status := bet.status.getD "open", trackedAt := bet.trackedAt.getD now }
  (bet, saveState { state with polymarketBets := state.polymarketBets ++ [full] } file)

/-- The update object of updatePolyBet. -/
structure PolyBetUpdates where
  status : Option String
  outcome : Option String
  pnl : Option ℚ
deriving DecidableEq

/-- Spread merge of an update object over a stored bet. -/
def applyBetUpdates (b : PolyBet) (u : PolyBetUpdates) : PolyBet :=
  { b with status := u.status.getD b.status,
           outcome := u.outcome.orElse fun _ => b.outcome,
           pnl := u.pnl.orElse fun _ => b.pnl }

/-- Replace the first bet whose conditionId matches, or none when absent. -/
def updateBetById (conditionId : String) (u : PolyBetUpdates) :
    List PolyBet → Option (PolyBet × List PolyBet)
  | [] => none
  | b :: rest =>
    if b.conditionId == conditionId then
      let b2 := applyBetUpdates b u
      some (b2, b2 :: rest)
    else
      match updateBetById conditionId u rest with
      | none => none
      | some (r, rest2) => some (r, b :: rest2)

/-- updatePolyBet: merge the updates into the first matching bet and save; an
unknown conditionId returns null without saving. -/
def updatePolyBet (conditionId : String) (u : PolyBetUpdates) (file : StateFile) :
    Option PolyBet × StateFile :=
  let state := loadState file
  match updateBetById conditionId u state.polymarketBets with
  | none => (none, file)
  | some (b2, bets2) =>
    (some b2, saveState { state with polymarketBets := bets2 } file)

/-- updateConfig: spread the updates over the stored config and save. -/
def updateConfig (u : PartialMoonConfig) (file : StateFile) : MoonConfig × StateFile :=
  let state := loadState file
  let cfg : MoonConfig :=
    { goalUsd := u.goalUsd.getD state.config.goalUsd,
      defaultRiskPct := u.defaultRiskPct.getD state.config.defaultRiskPct,
      defaultStopLossPct := u.defaultStopLossPct.getD state.config.defaultStopLossPct,
      lastWatchCheck := u.lastWatchCheck.getD state.config.lastWatchCheck }
  (cfg, saveState { state with config := cfg } file)

end Moon

/-! ## Shared helper lemmas -/

namespace Moon

theorem clamp01_bounds (y : ℝ) : 0 ≤ max 0 (min 1 y) ∧ max 0 (min 1 y) ≤ 1 :=
  ⟨le_max_left 0 _, max_le (by norm_num) (min_le_left 1 y)⟩

theorem load_save (doc : StateDoc) (file : StateFile) :
    loadState (saveState doc file) = doc := rfl

theorem passesFilters_false_of_bad (m : TokenMetrics)
    (h : m.holderCount < 10 ∨ 50 < m.topHolderPct ∨ m.hasCriticalRisk = true ∨
      m.quotable = false) : passesFilters m = false := by
  unfold passesFilters
  split_ifs with h1 h2 h3 h4 <;> simp_all

theorem max_half_comm (x : ℚ) : max (x / 2) 0 = max x 0 / 2 := by
  rcases le_total x 0 with h | h
  · rw [max_eq_right (by linarith), max_eq_right h]
    norm_num
  · rw [max_eq_left (by linarith), max_eq_left h]

theorem updateById_eq_none (id : String) (u : JournalUpdates)
    (l : List JournalEntry) (h : ∀ j ∈ l, j.id ≠ id) : updateById id u l = none := by
  induction l with
  | nil => rfl
  | cons j rest ih =>
    have hj : (j.id == id) = false :=
      beq_eq_false_iff_ne.mpr (h j (List.mem_cons_self j rest))
    rw [updateById, hj]
    simp only [Bool.false_eq_true, if_false]
    rw [ih fun x hx => h x (List.mem_cons_of_mem j hx)]

theorem updateBetById_eq_none (conditionId : String) (u : PolyBetUpdates)
    (l : List PolyBet) (h : ∀ b ∈ l, b.conditionId ≠ conditionId) :
    updateBetById conditionId u l = none := by
  induction l with
  | nil => rfl
  | cons b rest ih =>
    have hb : (b.conditionId == conditionId) = false :=
      beq_eq_false_iff_ne.mpr (h b (List.mem_cons_self b rest))
    rw [updateBetById, hb]
    simp only [Bool.false_eq_true, if_false]
    rw [ih fun x hx => h x (List.mem_cons_of_mem b hx)]

/-! ## Claim theorems -/

/-- C2: saving any full state document and loading it back returns a document
deep-equal to the one saved; the default document produced for a missing or
unparsable file is DEFAULT_STATE, so the round trip covers it as well. -/
theorem loadState_saveState_roundtrip :
    (∀ (doc : StateDoc) (file : StateFile), loadState (saveState doc file) = doc) ∧
    loadState none = DEFAULT_STATE :=
  ⟨load_save, rfl⟩

/-- C6: each of the five scoring sub-functions returns a value in [0,1] for
every input, including negative, zero and arbitrarily large raw values. -/
theorem score_functions_clamped :
    (∀ p : Option ℝ, 0 ≤ scoreLiquidity p ∧ scoreLiquidity p ≤ 1) ∧
    (∀ x : ℝ, 0 ≤ scoreVolume x ∧ scoreVolume x ≤ 1) ∧
    (∀ x : ℝ, 0 ≤ scoreHolders x ∧ scoreHolders x ≤ 1) ∧
    (∀ x : ℝ, 0 ≤ scoreSafety x ∧ scoreSafety x ≤ 1) ∧
    (∀ (now : ℝ) (c : Option ℝ), 0 ≤ scoreAge now c ∧ scoreAge now c ≤ 1) := by
  refine ⟨?_, ?_, ?_, ?_, ?_⟩
  · intro p
    cases p with
    | none => simp [scoreLiquidity]
    | some v => exact clamp01_bounds _
  · intro x
    exact clamp01_bounds _
  · intro x
    unfold scoreHolders
    split_ifs with h
    · norm_num
    · exact clamp01_bounds _
  · intro x
    exact clamp01_bounds _
  · intro now c
    cases c with
    | none => norm_num [scoreAge]
    | some v =>
      simp only [scoreAge]
      split_ifs with h
      · norm_num
      · constructor
        · exact (Real.exp_pos _).le
        · have hexp : -(max 0 (now - v)) / 86400 ≤ 0 := by
            have h0 : (0:ℝ) ≤ max 0 (now - v) := le_max_left 0 _
            have : -(max 0 (now - v)) ≤ 0 := by linarith
            linarith [div_nonpos_of_nonpos_of_nonneg this (by norm_num : (0:ℝ) ≤ 86400)]
          calc Real.exp (-(max 0 (now - v)) / 86400) ≤ Real.exp 0 := Real.exp_le_exp.mpr hexp
            _ = 1 := Real.exp_zero

/-- C7: calcPositionSize(10000, 2, 1.0, 0.8) returns riskAmount 200,
tokensToBuy 1000 (riskAmount over the 0.2 risk per token), positionSize 1000
and pctOfPortfolio 10. -/
theorem positionSize_example :
    calcPositionSize 10000 2 1 (some 0.8) =
      .ok { positionSize := 1000, tokensToBuy := 1000, riskAmount := 200, riskPct := 2,
            pctOfPortfolio := 10, entryPrice := 1, stopLossPrice := some 0.8 } := by
  norm_num [calcPositionSize]

/-- C10: with positive portfolio, risk% and entry price, a stop-loss that is
absent, nonpositive, or at/above the entry price is not an error: the no-stop
branch sizes the position at the full risk amount portfolioValue*riskPct/100
with tokensToBuy = riskAmount/entryPrice. -/
theorem positionSize_without_valid_stop (pv rp ep : ℚ) (stop : Option ℚ)
    (h1 : 0 < pv) (h2 : 0 < rp) (h3 : 0 < ep)
    (h4 : stop = none ∨ ∃ s, stop = some s ∧ (s ≤ 0 ∨ ep ≤ s)) :
    ∃ r : PositionSize, calcPositionSize pv rp ep stop = .ok r ∧
      r.riskAmount = pv * rp / 100 ∧ r.positionSize = pv * rp / 100 ∧
      r.tokensToBuy = pv * rp / 100 / ep := by
  have g1 : ¬ pv ≤ 0 := not_le.mpr h1
  have g2 : ¬ rp ≤ 0 := not_le.mpr h2
  have g3 : ¬ ep ≤ 0 := not_le.mpr h3
  rcases h4 with h | ⟨s, hs, hrange⟩
  · subst h
    refine ⟨{ positionSize := pv * (rp / 100), tokensToBuy := pv * (rp / 100) / ep,
              riskAmount := pv * (rp / 100), riskPct := rp,
              pctOfPortfolio := pv * (rp / 100) / pv * 100, entryPrice := ep,
              stopLossPrice := none }, ?_, ?_, ?_, ?_⟩
    · simp [calcPositionSize, if_neg g1, if_neg g2, if_neg g3]
    · simp [mul_div_assoc]
    · simp [mul_div_assoc]
    · simp [mul_div_assoc]
  · subst hs
    have hdec : (decide (0 < s) && decide (s < ep)) = false := by
      rcases hrange with hle | hge
      · simp [decide_eq_false (not_lt.mpr hle)]
      · simp [decide_eq_false (not_lt.mpr hge)]
    refine ⟨{ positionSize := pv * (rp / 100), tokensToBuy := pv * (rp / 100) / ep,
              riskAmount := pv * (rp / 100), riskPct := rp,
              pctOfPortfolio := pv * (rp / 100) / pv * 100, entryPrice := ep,
              stopLossPrice := if s = 0 then none else some s }, ?_, ?_, ?_, ?_⟩
    · simp [calcPositionSize, if_neg g1, if_neg g2, if_neg g3, hdec]
    · simp [mul_div_assoc]
    · simp [mul_div_assoc]
    · simp [mul_div_assoc]

/-- C10 witness: a stop-loss above the entry price falls back to full-loss
sizing at concrete inputs. -/
theorem positionSize_without_valid_stop_witness :
    ∃ r : PositionSize, calcPositionSize 10000 2 1 (some 2) = .ok r ∧
      r.riskAmount = 10000 * 2 / 100 ∧ r.positionSize = 10000 * 2 / 100 ∧
      r.tokensToBuy = 10000 * 2 / 100 / 1 :=
  positionSize_without_valid_stop 10000 2 1 (some 2) (by norm_num) (by norm_num)
    (by norm_num) (Or.inr ⟨2, rfl, Or.inr (by norm_num)⟩)

/-- C5: calcKellyCriterion(0.6, 20, 10) yields kellyPct 25 (raw 40 capped)
and halfKellyPct 12.5; in general, for avgLoss ≠ 0, winRate > 0 and
avgWin ≠ 0, kellyPct is the raw Kelly value capped above at 25 and floored
at 0, and halfKellyPct is kellyPct/2. The hypothesis avgWin ≠ 0 keeps the
win/loss ratio R = |avgWin|/|avgLoss| nonzero, the domain on which the
rational embedding coincides with the source float evaluation (at R = 0 the
source divides by zero and rides an Infinity or NaN through the cap and
floor, which ℚ cannot express). -/
theorem kellyCriterion_capped_formula :
    ((calcKellyCriterion 0.6 20 10).kellyPct = 25 ∧
     (calcKellyCriterion 0.6 20 10).halfKellyPct = 12.5) ∧
    ∀ winRate avgWin avgLoss : ℚ, avgLoss ≠ 0 → 0 < winRate → avgWin ≠ 0 →
      (calcKellyCriterion winRate avgWin avgLoss).kellyPct
        = max (min ((winRate - (1 - winRate) / (|avgWin| / |avgLoss|)) * 100) 25) 0 ∧
      (calcKellyCriterion winRate avgWin avgLoss).halfKellyPct
        = (calcKellyCriterion winRate avgWin avgLoss).kellyPct / 2 := by
  constructor
  · constructor
    · norm_num [calcKellyCriterion, min_def, max_def, abs]
    · norm_num [calcKellyCriterion, min_def, max_def, abs]
  · intro winRate avgWin avgLoss hLoss hWin _
    unfold calcKellyCriterion
    rw [if_neg hLoss, if_neg (not_le.mpr hWin)]
    exact ⟨rfl, max_half_comm _⟩

/-- C5 witness: the general cap/floor formula instantiated at (0.6, 20, 10). -/
theorem kellyCriterion_capped_formula_witness :
    (calcKellyCriterion 0.6 20 10).halfKellyPct
      = (calcKellyCriterion 0.6 20 10).kellyPct / 2 :=
  (kellyCriterion_capped_formula.2 0.6 20 10 (by norm_num) (by norm_num)
    (by norm_num)).2

end Moon

namespace Moon

/-- C1 counterexample: at current time 200000 and creation time 100000 (100000
seconds in the past, more than 24h), scoreAge is exp(-100000/86400), about
0.31, which is not strictly less than 0.01 as the claim states. -/
theorem scoreAge_day_old_not_below_001 :
    ¬ (scoreAge 200000 (some 100000) < 0.01) := by
  have hred : scoreAge 200000 (some 100000) = Real.exp (-(100000 : ℝ) / 86400) := by
    simp only [scoreAge]
    rw [if_neg (by norm_num : (100000 : ℝ) ≠ 0),
      show ((200000 : ℝ) - 100000) = 100000 by norm_num,
      max_eq_right (by norm_num : (0 : ℝ) ≤ 100000)]
  rw [hred, not_lt]
  have h2 : Real.exp ((100000 : ℝ) / 86400) < Real.exp 2 :=
    Real.exp_lt_exp.mpr (by norm_num)
  have h3 : Real.exp 2 < 100 := by
    have he : Real.exp 2 = Real.exp 1 * Real.exp 1 := by
      rw [← Real.exp_add]; norm_num
    nlinarith [Real.exp_one_lt_d9, Real.exp_pos 1]
  have h4 : Real.exp ((100000 : ℝ) / 86400) < 100 := lt_trans h2 h3
  have h5 : (0.01 : ℝ) < (Real.exp ((100000 : ℝ) / 86400))⁻¹ := by
    rw [show (0.01 : ℝ) = (100 : ℝ)⁻¹ by norm_num]
    exact inv_strictAnti₀ (Real.exp_pos _) h4
  rw [neg_div, Real.exp_neg]
  exact h5.le

/-- C1 amended: scoreAge at a creation time equal to the current time returns
exactly 1.0, and scoreAge at a creation time 100000 seconds in the past
returns exp(-100000/86400), approximately 0.31: strictly below 0.37 but not
below 0.01. Stated for any clock value beyond 100000 so both creation times
are nonzero (truthy). -/
theorem scoreAge_fresh_one_and_day_old_decayed (now : ℝ) (h : 100000 < now) :
    scoreAge now (some now) = 1 ∧ scoreAge now (some (now - 100000)) < 0.37 := by
  constructor
  · simp only [scoreAge]
    rw [if_neg (ne_of_gt (by linarith : (0 : ℝ) < now)), sub_self]
    simp [Real.exp_zero]
  · simp only [scoreAge]
    rw [if_neg (ne_of_gt (by linarith : (0 : ℝ) < now - 100000)),
      show now - (now - 100000) = (100000 : ℝ) by ring,
      max_eq_right (by norm_num : (0 : ℝ) ≤ 100000)]
    have h2 : Real.exp (-(100000 : ℝ) / 86400) < Real.exp (-1) :=
      Real.exp_lt_exp.mpr (by norm_num)
    have h3 : Real.exp (-1 : ℝ) < 0.37 := by
      rw [Real.exp_neg]
      calc (Real.exp 1)⁻¹ < (2.7182818283 : ℝ)⁻¹ :=
            inv_strictAnti₀ (by norm_num) Real.exp_one_gt_d9
        _ < 0.37 := by norm_num
    exact lt_trans h2 h3

/-- C1 witness: the amended statement instantiated at clock 200000. -/
theorem scoreAge_fresh_one_and_day_old_decayed_witness :
    scoreAge 200000 (some 200000) = 1 ∧
    scoreAge 200000 (some (200000 - 100000)) < 0.37 :=
  scoreAge_fresh_one_and_day_old_decayed 200000 (by norm_num)

/-- C3: updating a journal entry by an id no stored entry carries, or a
tracked bet by a conditionId no stored bet carries, returns the null sentinel
and leaves the state file untouched (no save occurs). -/
theorem update_unknown_target_noop :
    (∀ (file : StateFile) (id : String) (u : JournalUpdates),
      (∀ j ∈ (loadState file).journal, j.id ≠ id) →
      updateJournalEntry id u file = (none, file)) ∧
    (∀ (file : StateFile) (conditionId : String) (u : PolyBetUpdates),
      (∀ b ∈ (loadState file).polymarketBets, b.conditionId ≠ conditionId) →
      updatePolyBet conditionId u file = (none, file)) := by
  constructor
  · intro file id u h
    simp only [updateJournalEntry]
    rw [updateById_eq_none id u _ h]
  · intro file conditionId u h
    simp only [updatePolyBet]
    rw [updateBetById_eq_none conditionId u _ h]

/-- C3 witness: both updates against the default (empty) state document. -/
theorem update_unknown_target_noop_witness :
    updateJournalEntry "missing" ⟨none, none, none, none, none, none⟩ none = (none, none) ∧
    updatePolyBet "missing" ⟨none, none, none⟩ none = (none, none) :=
  ⟨update_unknown_target_noop.1 none "missing" _
      (by intro j hj; simp [loadState, DEFAULT_STATE] at hj),
   update_unknown_target_noop.2 none "missing" _
      (by intro b hb; simp [loadState, DEFAULT_STATE] at hb)⟩

/-- C4: whatever the fetch results, a token whose metrics show fewer than 10
holders, top-10 concentration above 50, any critical safety risk, or no
obtainable quote fails passesFilters regardless of its composite score, and
the composite score is still computed (score = computeScore of the metrics)
for such excluded tokens. -/
theorem filters_exclude_regardless_of_score
    (mint : String) (createdAt : Option ℚ) (now : ℚ)
    (holdersResult : Option HoldersData) (safetyResult : Option SafetyData)
    (quoteResult : Option QuoteData) (txResult : Option (List TxRecord))
    (hbad :
      (analyzeToken mint createdAt now holdersResult safetyResult quoteResult
        txResult).holderCount < 10 ∨
      50 < (analyzeToken mint createdAt now holdersResult safetyResult quoteResult
        txResult).topHolderPct ∨
      (analyzeToken mint createdAt now holdersResult safetyResult quoteResult
        txResult).hasCriticalRisk = true ∨
      (analyzeToken mint createdAt now holdersResult safetyResult quoteResult
        txResult).quotable = false) :
    passesFilters (analyzeToken mint createdAt now holdersResult safetyResult
        quoteResult txResult) = false ∧
    (analyzeToken mint createdAt now holdersResult safetyResult quoteResult
        txResult).score
      = computeScore (analyzeToken mint createdAt now holdersResult safetyResult
        quoteResult txResult) :=
  ⟨passesFilters_false_of_bad _ hbad, rfl⟩

/-- C4 witness: a token with 9 holders (and a critical safety risk, with a
perfect test quote) is excluded. -/
theorem filters_exclude_regardless_of_score_witness :
    passesFilters (analyzeToken "mint" none 0 (some ⟨9, 10⟩) (some ⟨1, 0⟩)
      (some ⟨0⟩) none) = false :=
  (filters_exclude_regardless_of_score "mint" none 0 (some ⟨9, 10⟩) (some ⟨1, 0⟩)
      (some ⟨0⟩) none (Or.inl (by decide))).1

end Moon

namespace Moon

theorem trimmed_length_le (L : List ScanRecord) (r : ScanRecord) :
    (if 50 < (L ++ [r]).length then (L ++ [r]).drop ((L ++ [r]).length - 50)
     else L ++ [r]).length ≤ 50 := by
  split_ifs with hc
  · simp only [List.length_drop]
    omega
  · omega

/-- C8: addScanRecord appends the stamped record and keeps exactly the most
recent 50 entries when the list would exceed 50; every other state-store
mutator leaves scanHistory unchanged, so a scanHistory of at most 50 entries
is an invariant of all operations. -/
theorem scanHistory_ring_buffer (file : StateFile)
    (h : (loadState file).scanHistory.length ≤ 50) :
    (∀ (now : ℚ) (record : ScanRecordInput),
      (loadState (addScanRecord now record file)).scanHistory =
        (if 50 < ((loadState file).scanHistory ++ [mkScanRecord now record]).length
         then ((loadState file).scanHistory ++ [mkScanRecord now record]).drop
            (((loadState file).scanHistory ++ [mkScanRecord now record]).length - 50)
         else (loadState file).scanHistory ++ [mkScanRecord now record]) ∧
      (loadState (addScanRecord now record file)).scanHistory.length ≤ 50) ∧
    (∀ (now : ℚ) (entry : JournalEntryInput),
      (loadState (addJournalEntry now entry file).2).scanHistory
        = (loadState file).scanHistory) ∧
    (∀ (id : String) (u : JournalUpdates),
      (loadState (updateJournalEntry id u file).2).scanHistory
        = (loadState file).scanHistory) ∧
    (∀ (now : ℚ) (item : WatchlistItemInput),
      (loadState (addWatchlistItem now item file).2).scanHistory
        = (loadState file).scanHistory) ∧
    (∀ mint : String,
      (loadState (removeWatchlistItem mint file).2).scanHistory
        = (loadState file).scanHistory) ∧
    (∀ (name : String) (mint notes : Option String),
      (loadState (addNarrative name mint notes file).2).scanHistory
        = (loadState file).scanHistory) ∧
    (∀ (now : ℚ) (bet : PolyBetInput),
      (loadState (addPolyBet now bet file).2).scanHistory
        = (loadState file).scanHistory) ∧
    (∀ (conditionId : String) (u : PolyBetUpdates),
      (loadState (updatePolyBet conditionId u file).2).scanHistory
        = (loadState file).scanHistory) ∧
    (∀ u : PartialMoonConfig,
      (loadState (updateConfig u file).2).scanHistory
        = (loadState file).scanHistory) := by
  refine ⟨?_, ?_, ?_, ?_, ?_, ?_, ?_, ?_, ?_⟩
  · intro now record
    refine ⟨rfl, ?_⟩
    exact trimmed_length_le (loadState file).scanHistory _
  · intro now entry
    rfl
  · intro id u
    rcases h2 : updateById id u (loadState file).journal with _ | ⟨j2, journal2⟩
    · simp only [updateJournalEntry, h2]
    · simp only [updateJournalEntry, h2]
      rfl
  · intro now item
    rfl
  · intro mint
    rfl
  · intro name mint notes
    rfl
  · intro now bet
    rfl
  · intro conditionId u
    rcases h2 : updateBetById conditionId u (loadState file).polymarketBets with _ | ⟨b2, bets2⟩
    · simp only [updatePolyBet, h2]
    · simp only [updatePolyBet, h2]
      rfl
  · intro u
    rfl

/-- C8 witness: adding a scan record to the default (empty) state stores
exactly that record. -/
theorem scanHistory_ring_buffer_witness :
    (loadState (addScanRecord 5 ⟨none, ["m1"], 1⟩ none)).scanHistory =
      [({ timestamp := 5, topMints := ["m1"], bestScore := 1 } : ScanRecord)] := by
  have h := (scanHistory_ring_buffer none
      (by simp [loadState, DEFAULT_STATE])).1 5 ⟨none, ["m1"], 1⟩
  rw [h.1]
  simp [loadState, DEFAULT_STATE, mkScanRecord]

theorem closedEntries_append_closed (entries : List JournalEntry) (e : JournalEntry)
    (h1 : e.status = "closed") (h2 : e.pnlPct.isSome) :
    closedEntries (entries ++ [e]) = closedEntries entries ++ [e] := by
  simp [closedEntries, List.filter_append, h1, h2]

theorem winsOf_append_breakeven (l : List JournalEntry) (e : JournalEntry)
    (h2 : e.pnlPct = some 0) : winsOf (l ++ [e]) = winsOf l := by
  simp [winsOf, List.filter_append, h2]

theorem lossesOf_append_breakeven (l : List JournalEntry) (e : JournalEntry)
    (h2 : e.pnlPct = some 0) : lossesOf (l ++ [e]) = lossesOf l ++ [e] := by
  simp [lossesOf, List.filter_append, h2]

theorem wins_add_losses (l : List JournalEntry) :
    (winsOf l).length + (lossesOf l).length = l.length := by
  induction l with
  | nil => rfl
  | cons e rest ih =>
    by_cases h : 0 < e.pnlPct.getD 0
    · have h2 : ¬ e.pnlPct.getD 0 ≤ 0 := not_le.mpr h
      simp only [winsOf, lossesOf, List.filter_cons, decide_eq_true_eq, h, h2,
        if_true, if_false, List.length_cons] at ih ⊢
      omega
    · have h2 : e.pnlPct.getD 0 ≤ 0 := not_lt.mp h
      simp only [winsOf, lossesOf, List.filter_cons, decide_eq_true_eq, h, h2,
        if_true, if_false, List.length_cons] at ih ⊢
      omega

theorem streaksOf_append (l : List JournalEntry) (e : JournalEntry) :
    streaksOf (l ++ [e]) = streakStep (streaksOf l) e := by
  simp [streaksOf, List.foldl_append]

/-- C9: appending a closed break-even entry (pnlPct exactly 0) to a journal
makes the analyzer count it as a loss: the loss count grows by one, the win
set (and hence avgWin) is unchanged, the win rate strictly drops (when wins
exist), wins and losses partition the closed trades with no third outcome,
and the streak walk extends or starts a losing streak at that entry. -/
theorem breakeven_trade_counted_as_loss (entries : List JournalEntry)
    (e : JournalEntry) (h1 : e.status = "closed") (h2 : e.pnlPct = some 0)
    (h3 : 0 < (journalStats (closedEntries entries)).wins) :
    analyzeJournal (entries ++ [e])
        = .stats (journalStats (closedEntries (entries ++ [e]))) ∧
    (journalStats (closedEntries (entries ++ [e]))).losses
        = (journalStats (closedEntries entries)).losses + 1 ∧
    (journalStats (closedEntries (entries ++ [e]))).wins
        = (journalStats (closedEntries entries)).wins ∧
    (journalStats (closedEntries (entries ++ [e]))).winRate
        < (journalStats (closedEntries entries)).winRate ∧
    (journalStats (closedEntries (entries ++ [e]))).avgWinPct
        = (journalStats (closedEntries entries)).avgWinPct ∧
    (journalStats (closedEntries (entries ++ [e]))).wins
        + (journalStats (closedEntries (entries ++ [e]))).losses
        = (journalStats (closedEntries (entries ++ [e]))).totalTrades ∧
    ((journalStats (closedEntries (entries ++ [e]))).streaks.tempStreak
        = (if (journalStats (closedEntries entries)).streaks.tempStreak < 0
           then (journalStats (closedEntries entries)).streaks.tempStreak - 1
           else -1)) ∧
    (journalStats (closedEntries (entries ++ [e]))).streaks.tempStreak < 0 := by
  have hsome : e.pnlPct.isSome := by rw [h2]; rfl
  have happ := closedEntries_append_closed entries e h1 hsome
  have pw : ∀ L, (journalStats L).wins = (winsOf L).length := fun L => rfl
  have pl : ∀ L, (journalStats L).losses = (lossesOf L).length := fun L => rfl
  have pt : ∀ L, (journalStats L).totalTrades = L.length := fun L => rfl
  have pr : ∀ L, (journalStats L).winRate
      = ((winsOf L).length : ℚ) / (L.length : ℚ) := fun L => rfl
  have pa : ∀ L, (journalStats L).avgWinPct
      = (if 0 < (winsOf L).length
         then ((winsOf L).map fun x => x.pnlPct.getD 0).sum / ((winsOf L).length : ℚ)
         else 0) := fun L => rfl
  have ps : ∀ L, (journalStats L).streaks = streaksOf L := fun L => rfl
  have hw := winsOf_append_breakeven (closedEntries entries) e h2
  have hl := lossesOf_append_breakeven (closedEntries entries) e h2
  have hwpos : 0 < (winsOf (closedEntries entries)).length := by
    rw [pw] at h3
    exact h3
  have hnpos : 0 < (closedEntries entries).length :=
    lt_of_lt_of_le hwpos (List.length_filter_le _ _)
  refine ⟨?_, ?_, ?_, ?_, ?_, ?_, ?_, ?_⟩
  · simp only [analyzeJournal, happ]
    rw [if_neg (by simp)]
  · rw [happ, pl, pl, hl, List.length_append, List.length_cons]
    rfl
  · rw [happ, pw, pw, hw]
  · rw [happ, pr, pr, hw, List.length_append, List.length_singleton]
    have c1 : (0 : ℚ) < ((winsOf (closedEntries entries)).length : ℚ) := by
      exact_mod_cast hwpos
    have c2 : (0 : ℚ) < ((closedEntries entries).length : ℚ) := by
      exact_mod_cast hnpos
    push_cast
    exact div_lt_div_of_pos_left c1 c2 (by linarith)
  · rw [happ, pa, pa, hw]
  · rw [happ, pw, pl, pt]
    exact wins_add_losses _
  · rw [happ, ps, ps, streaksOf_append]
    simp [streakStep, h2]
  · rw [happ, ps, streaksOf_append]
    simp only [streakStep, h2, Option.getD_some, lt_irrefl, if_false]
    split_ifs with hneg
    · omega
    · omega

/-- C9 witness: one closed winning trade followed by a closed break-even
trade; the loss count grows from 0 to 1. -/
theorem breakeven_trade_counted_as_loss_witness :
    (journalStats (closedEntries
        ([⟨"j1", none, none, none, none, none, none, none, none, "closed",
            none, none, some 5, some 10, none, none, none, 1⟩] ++
         [⟨"j2", none, none, none, none, none, none, none, none, "closed",
            none, none, some 0, some 0, none, none, none, 2⟩]))).losses
      = (journalStats (closedEntries
        [⟨"j1", none, none, none, none, none, none, none, none, "closed",
            none, none, some 5, some 10, none, none, none, 1⟩])).losses + 1 :=
  (breakeven_trade_counted_as_loss
    [⟨"j1", none, none, none, none, none, none, none, none, "closed",
        none, none, some 5, some 10, none, none, none, 1⟩]
    ⟨"j2", none, none, none, none, none, none, none, none, "closed",
        none, none, some 0, some 0, none, none, none, 2⟩
    rfl rfl (by decide)).2.1

end Moon
